import Mathlib

/-!
Shallow embedding of `depstubber.go` (package `main` of gitworkflows/depstubber).

The file models the orchestration in `main` / `createStubs` and the rendering
in `generator.Generate` / `generator.Output` faithfully from the source.
Helpers that live in repository files outside `src/` (`reflectMode`,
`autoDetect`, `DeduplicateStrings`, `packageNameOfDir`, `findModuleRoot`,
`split`, `copyLicenses`, `stubModulesTxt`) and the external world (file
system, `imports.Process`) are modelled from the spec; each such definition
says so in its doc comment.  Side effects are recorded as an explicit trace
of events; `log.Fatalf` is modelled as stopping the run with an error while
keeping the events performed so far.
-/

namespace Depstubber

/-- Modelled from the spec: the loaded target package seen by the extractor
(`reflectMode` lives outside `src/`).  `names` is the list of exported symbol
names present on the package, in package load order; `declOf` gives the
rendered stub declaration for a symbol. -/
structure LoadedPackage where
  names : List String
  declOf : String → String

/-- Modelled from the spec: `model.PackedPkg` (the `model` package is outside
`src/`).  `Generate` in `src/depstubber.go` only uses its `Body` field, the
rendered stub declarations. -/
structure PackedPkg where
  Body : String

/-- The `generator` struct of `src/depstubber.go` (the `bytes.Buffer` is kept
implicit: `generateLines` below returns the lines printed into it). -/
structure Generator where
  srcPackage : String
  srcExports : String
  srcFunctions : String
  copyrightHeader : String

/-- Modelled from the spec: the body rendered by the extractor+synthesizer for
the requested symbols — one declaration per requested name, in the request's
stable order (type names first, then function/variable names). -/
def stubBody (pkg : LoadedPackage) (typeNames funcAndVarNames : List String) : String :=
  String.intercalate ("\n") ((typeNames ++ funcAndVarNames).map pkg.declOf)

/-- Modelled from the spec: the extraction step on an already-loaded package.
A requested name absent from the package is a hard failure naming the first
missing symbol (`SymbolNotFoundError`); otherwise the packed body holds the
stub declarations in request order. -/
def reflectLoaded (pkg : LoadedPackage) (typeNames funcAndVarNames : List String) :
    Except String PackedPkg :=
  match (typeNames ++ funcAndVarNames).find? (fun n => decide (n ∉ pkg.names)) with
  | some missing => Except.error (("SymbolNotFoundError: ") ++ missing)
  | none => Except.ok ⟨stubBody pkg typeNames funcAndVarNames⟩

/-- The events a run can perform on the outside world, in order. -/
inductive Event where
  | removeAll (path : String)
  | scanComplete
  | extract (pkg : String)
  | mkdirAll (dir : String)
  | createFile (path : String)
  | writeFile (path : String) (content : String)
  | writeStdout (content : String)
  | copyLicenses (dirs : List String)
  | writeModulesTxt
  | printComments
  deriving DecidableEq

/-- The outside world as `src/depstubber.go` observes it: current directory,
module root, loadable packages, results of the helpers that live outside
`src/`, and the behaviour of `imports.Process` and the file system. -/
structure Env where
  moduleRoot : String
  vendorDirExists : Bool
  packages : List (String × LoadedPackage)
  cwdPkgName : Option String
  copyrightContent : Option String
  formatOk : String → Bool
  formatted : String → String
  writeOk : Bool
  licenseCopyOk : Bool
  autoResult :
    Option (List (String × List String) × List (String × List String) ×
      List (String × List String))

/-- The command-line flags of `src/depstubber.go`. -/
structure Flags where
  destination : String
  vendor : Bool
  copyrightFile : String
  writeModuleTxt : Bool
  forceOverwrite : Bool
  auto : Bool
  printMode : Bool

/-- The non-flag arguments of the explicit (non-auto) mode. -/
structure Args where
  pkg : String
  typesArg : String
  funcsArg : String

/-- Modelled from the spec: `reflectMode` (outside `src/`) loads the target
package and extracts the requested symbols; a package that cannot be loaded
is a `ResolutionError`. -/
def reflectMode (env : Env) (packageName : String)
    (typeNames funcAndVarNames : List String) : Except String PackedPkg :=
  match List.lookup packageName env.packages with
  | none => Except.error (("ResolutionError: ") ++ packageName)
  | some pkg => reflectLoaded pkg typeNames funcAndVarNames

/-- Model of `filepath.Dir` on slash-separated paths: drop the last component. -/
def dirname (p : String) : String :=
  String.intercalate ("/") ((p.splitOn ("/")).dropLast)

/-- Model of `filepath.Join` on slash-separated paths. -/
def pathJoin (parts : List String) : String :=
  String.intercalate ("/") parts

/-- The lines printed by `generator.Generate` in `src/depstubber.go`
(lines 207–235), in order: the DO-NOT-EDIT marker, the stub notice naming the
source package, the license note (copyright header lines if one was given),
the `Source:` provenance line with the literal requested lists, and the body. -/
def generateLines (g : Generator) (body : String) : List String :=
  [("// Code generated by depstubber. DO NOT EDIT."),
   ("// This is a simple stub for ") ++ g.srcPackage ++ (", strictly for use in testing."),
   ("")] ++
  (if g.copyrightHeader ≠ ("") then
     [("// See the license below for information about the licensing of the original library."),
      ("")] ++
     ((g.copyrightHeader.splitOn ("\n")).map (fun line => ("// ") ++ line)) ++ [("")]
   else
     [("// See the LICENSE file for information about the licensing of the original library.")]) ++
  [("// Source: ") ++ g.srcPackage ++ (" (exports: ") ++ g.srcExports ++
     ("; functions: ") ++ g.srcFunctions ++ (")"),
   (""), (""), body]

/-- The content of `g.buf` after `Generate`: each printed line followed by a
newline (`g.p` appends `format+"\n"`). -/
def rawOutput (g : Generator) (pkg : PackedPkg) : String :=
  String.join ((generateLines g pkg.Body).map (fun l => l ++ ("\n")))

/-- The generator `createStubs` builds (lines 150–153): source package plus the
comma-joined requested lists. -/
def mkGenerator (packageName : String) (typeNames funcAndVarNames : List String)
    (header : String) : Generator :=
  ⟨packageName, String.intercalate (",") typeNames,
   String.intercalate (",") funcAndVarNames, header⟩

/-- Resolution of the package argument at the top of `createStubs`
(lines 111–120): the literal `"."` is replaced by the import path of the
package in the current working directory (`packageNameOfDir`, outside `src/`,
modelled by `env.cwdPkgName`). -/
def resolveName (env : Env) (packageName : String) : Except String String :=
  if packageName = (".") then
    match env.cwdPkgName with
    | some n => Except.ok n
    | none => Except.error ("Parse package name failed")
  else Except.ok packageName

/-- The derived vendor destination `vendor/<PKGPATH>/stub.go` under the module
root (line 135). -/
def vendorDest (env : Env) (packageName : String) : String :=
  pathJoin [env.moduleRoot, ("vendor"), packageName, ("stub.go")]

/-- The destination-directory events of `createStubs` (lines 138–148): when a
destination is named, its parent directory is created and the file is created
(truncated); an empty destination means stdout and performs nothing. -/
def destEvents (dest : String) : List Event :=
  if dest = ("") then [] else [Event.mkdirAll (dirname dest), Event.createFile dest]

/-- Reading the copyright header (lines 155–164): only attempted when the
`-copyright_file` flag is set; an unreadable file is fatal. -/
def readCopyright (env : Env) (fl : Flags) : Except String String :=
  if fl.copyrightFile = ("") then Except.ok ("")
  else
    match env.copyrightContent with
    | some c => Except.ok c
    | none => Except.error ("Failed reading copyright file")

/-- The part of `createStubs` after the `reflectMode` call (lines 124–175):
destination resolution, file creation, generation, formatting (`Output`,
lines 238–245, where a formatting failure is fatal), the write, and license
copying.  Returns the events performed and the fatal error, if any.  The
trace never contains an `extract` event: that one is prepended by
`createStubsRun`. -/
def afterExtract (env : Env) (fl : Flags) (packageName : String)
    (typeNames funcAndVarNames licenseDirs : List String) : List Event × Option String :=
  match reflectMode env packageName typeNames funcAndVarNames with
  | Except.error e => ([], some (("Loading input failed: ") ++ e))
  | Except.ok pkg =>
    let dest := if fl.vendor then vendorDest env packageName else fl.destination
    match readCopyright env fl with
    | Except.error e => (destEvents dest, some e)
    | Except.ok header =>
      let raw := rawOutput (mkGenerator packageName typeNames funcAndVarNames header) pkg
      if env.formatOk raw then
        let out := env.formatted raw
        let wev := if dest = ("") then Event.writeStdout out else Event.writeFile dest out
        if env.writeOk then
          if env.licenseCopyOk then
            (destEvents dest ++ [wev, Event.copyLicenses licenseDirs], none)
          else
            (destEvents dest ++ [wev], some ("Failed to find or copy licenses"))
        else (destEvents dest, some ("Failed writing to destination"))
      else (destEvents dest, some ("Failed to format generated source code"))

/-- The whole of `createStubs` (lines 106–176): resolve a `"."` package
argument, invoke extraction (`reflectMode`, recorded as an `extract` event),
then run the output pipeline. -/
def createStubsRun (env : Env) (fl : Flags) (packageName : String)
    (typeNames funcAndVarNames licenseDirs : List String) : List Event × Option String :=
  match resolveName env packageName with
  | Except.error e => ([], some e)
  | Except.ok name =>
    let r := afterExtract env fl name typeNames funcAndVarNames licenseDirs
    (Event.extract name :: r.1, r.2)

/-- Map access with Go's zero-value default: `m[key]` is `nil` for a missing
key. -/
def lookupD (m : List (String × List String)) (p : String) : List String :=
  (List.lookup p m).getD []

/-- One auto-mode pass for package path `p`, with the symbol lists the usage
scanner discovered for it (lines 85–92). -/
def passOf (env : Env) (fl : Flags)
    (tm fm dirs : List (String × List String)) (p : String) : List Event × Option String :=
  createStubsRun env fl p (lookupD tm p) (lookupD fm p) (lookupD dirs p)

/-- The auto-mode loop over the sorted package paths (lines 85–92): each pass
runs to completion before the next begins, and a fatal error in a pass stops
the run with the events performed so far. -/
def runPasses (env : Env) (fl : Flags) (tm fm dirs : List (String × List String)) :
    List String → List Event × Option String
  | [] => ([], none)
  | p :: rest =>
    let r := passOf env fl tm fm dirs p
    match r.2 with
    | some e => (r.1, some e)
    | none =>
      let r2 := runPasses env fl tm fm dirs rest
      (r.1 ++ r2.1, r2.2)

/-- The keys of a discovered-names map. -/
def keysOf (m : List (String × List String)) : List String :=
  m.map Prod.fst

/-- The package-path list of auto mode (lines 73–83): the function/variable
map's keys, then the type map's keys, deduplicated (`DeduplicateStrings`,
outside `src/`, modelled from the spec as duplicate removal) and sorted
(`sort.Strings`, lexicographic). -/
def autoPkgPaths (tm fm : List (String × List String)) : List String :=
  List.insertionSort (fun a b => a ≤ b) (List.dedup (keysOf fm ++ keysOf tm))

/-- The auto-detection branch of `main` (lines 68–92): run the usage scanner
(`autoDetect`, outside `src/`, modelled by `env.autoResult`; its completion is
the `scanComplete` event), build the package-path list, then run one pass per
path. -/
def mainAutoRun (env : Env) (fl : Flags) : List Event × Option String :=
  match env.autoResult with
  | none => ([], some ("Error while auto-detecting imported objects"))
  | some (tm, fm, dirs) =>
    let r := runPasses env fl tm fm dirs (autoPkgPaths tm fm)
    (Event.scanComplete :: r.1, r.2)

/-- Modelled from the spec: `split` (outside `src/`) turns a comma-separated
argument into a name list, the empty argument into the empty list. -/
def split (s : String) : List String :=
  if s = ("") then [] else s.splitOn (",")

/-- The whole of `main` (lines 32–104): the `-write_module_txt` and `-print`
early returns, the vendor-directory removal when `-vendor -force` are both
set, then the auto or explicit mode, then the modules.txt stub when
`-vendor` is set. -/
def mainRun (env : Env) (fl : Flags) (args : Args) : List Event × Option String :=
  if fl.writeModuleTxt then ([Event.writeModulesTxt], none)
  else if fl.printMode then
    match env.autoResult with
    | none => ([], some ("Error while auto-detecting imported objects"))
    | some _ => ([Event.printComments], none)
  else
    let pre : List Event :=
      if fl.vendor && fl.forceOverwrite && env.vendorDirExists then
        [Event.removeAll (pathJoin [env.moduleRoot, ("vendor")])]
      else []
    let r :=
      if fl.auto then mainAutoRun env fl
      else createStubsRun env fl args.pkg (split args.typesArg) (split args.funcsArg) []
    match r.2 with
    | some e => (pre ++ r.1, some e)
    | none =>
      if fl.vendor then (pre ++ r.1 ++ [Event.writeModulesTxt], none)
      else (pre ++ r.1, none)

/-- The extraction invocations recorded in a trace, in order. -/
def extractTag : Event → Option String
  | Event.extract p => some p
  | _ => none

/-- The list of package paths extraction was invoked on, in trace order. -/
def extractedOf (es : List Event) : List String :=
  es.filterMap extractTag

/-- Whether an event writes the destination file. -/
def isWriteFile : Event → Bool
  | Event.writeFile _ _ => true
  | _ => false

/-- Whether an event creates (truncates) the destination file. -/
def isCreateFile : Event → Bool
  | Event.createFile _ => true
  | _ => false

/-- An environment that differs from `env` only in the set of loadable
packages: exactly one package at path `p`. -/
def envWithPackage (env : Env) (p : String) (pkg : LoadedPackage) : Env :=
  { env with packages := [(p, pkg)] }

/-- A sample stub-declaration renderer for concrete runs. -/
def sampleDecl : String → String :=
  fun n => ("decl ") ++ n

/-- A sample loadable package exposing the type `T1` and the function `F1`. -/
def samplePkgA : LoadedPackage :=
  ⟨[("T1"), ("F1")], sampleDecl⟩

/-- A sample healthy environment: one loadable package `pkgA`, a well-behaved
formatter and file system, and a usage scan that discovered `pkgA.T1` as a
type and `pkgA.F1` as a value. -/
def sample1Env : Env where
  moduleRoot := ("/w")
  vendorDirExists := true
  packages := [(("pkgA"), samplePkgA)]
  cwdPkgName := some ("pkgA")
  copyrightContent := none
  formatOk := fun _ => true
  formatted := fun s => s
  writeOk := true
  licenseCopyOk := true
  autoResult := some ([(("pkgA"), [("T1")])], [(("pkgA"), [("F1")])], [(("pkgA"), [("d1")])])

/-- A sample environment whose usage scan discovered no external imports. -/
def sampleEmptyEnv : Env :=
  { sample1Env with autoResult := some ([], [], []) }

/-- A sample environment whose formatter rejects every input. -/
def sampleNoFmtEnv : Env :=
  { sample1Env with formatOk := fun _ => false }

/-- Sample flags: auto mode, stdout, no vendor handling. -/
def sampleFlags : Flags where
  destination := ("")
  vendor := false
  copyrightFile := ("")
  writeModuleTxt := false
  forceOverwrite := false
  auto := true
  printMode := false

/-- Sample flags naming an explicit destination file in explicit mode. -/
def sampleDestFlags : Flags :=
  { sampleFlags with destination := ("out.go"), auto := false }

/-- Sample flags for a vendored, forced run. -/
def sampleVendorFlags : Flags :=
  { sampleFlags with vendor := true, forceOverwrite := true }

/-- Sample explicit-mode arguments. -/
def sampleArgs : Args :=
  ⟨("pkgA"), ("T1"), ("F1")⟩

/-! ## Helper lemmas -/

theorem find?_ext (p q : α → Bool) :
    ∀ l : List α, (∀ x ∈ l, p x = q x) → l.find? p = l.find? q
  | [], _ => rfl
  | a :: l, h => by
    have ha : p a = q a := h a (by simp)
    simp only [List.find?, ha]
    cases q a with
    | true => rfl
    | false => exact find?_ext p q l (fun x hx => h x (by simp [hx]))

theorem resolveName_ne (env : Env) (p : String) (hp : p ≠ (".")) :
    resolveName env p = Except.ok p := by
  unfold resolveName
  rw [if_neg hp]

theorem reflectLoaded_ok (pkg : LoadedPackage) (t f : List String)
    (hall : ∀ s ∈ t ++ f, s ∈ pkg.names) :
    reflectLoaded pkg t f = Except.ok ⟨stubBody pkg t f⟩ := by
  unfold reflectLoaded
  have hn : (t ++ f).find? (fun n => decide (n ∉ pkg.names)) = none := by
    rw [List.find?_eq_none]
    intro x hx
    simp [hall x hx]
  rw [hn]

theorem reflectLoaded_memEq (t f ns1 ns2 : List String) (dd : String → String)
    (hperm : ∀ s ∈ t ++ f, (s ∈ ns1 ↔ s ∈ ns2)) :
    reflectLoaded ⟨ns1, dd⟩ t f = reflectLoaded ⟨ns2, dd⟩ t f := by
  unfold reflectLoaded
  have h : (t ++ f).find? (fun n => decide (n ∉ ns1))
      = (t ++ f).find? (fun n => decide (n ∉ ns2)) := by
    refine find?_ext _ _ (t ++ f) (fun x hx => ?_)
    exact decide_eq_decide.mpr (not_congr (hperm x hx))
  rw [h]
  rfl

theorem afterExtract_congr (e1 e2 : Env) (fl : Flags) (n : String) (t f dl : List String)
    (hrm : reflectMode e1 n t f = reflectMode e2 n t f)
    (h1 : e1.moduleRoot = e2.moduleRoot) (h2 : e1.copyrightContent = e2.copyrightContent)
    (h3 : e1.formatOk = e2.formatOk) (h4 : e1.formatted = e2.formatted)
    (h5 : e1.writeOk = e2.writeOk) (h6 : e1.licenseCopyOk = e2.licenseCopyOk) :
    afterExtract e1 fl n t f dl = afterExtract e2 fl n t f dl := by
  unfold afterExtract vendorDest readCopyright
  rw [hrm, h1, h2, h3, h4, h5, h6]

theorem createStubsRun_congr (e1 e2 : Env) (fl : Flags) (p : String) (t f dl : List String)
    (hres : resolveName e1 p = resolveName e2 p)
    (hae : ∀ n, afterExtract e1 fl n t f dl = afterExtract e2 fl n t f dl) :
    createStubsRun e1 fl p t f dl = createStubsRun e2 fl p t f dl := by
  unfold createStubsRun
  rw [hres]
  cases resolveName e2 p with
  | error e => rfl
  | ok n =>
    show (Event.extract n :: (afterExtract e1 fl n t f dl).1, (afterExtract e1 fl n t f dl).2)
      = (Event.extract n :: (afterExtract e2 fl n t f dl).1, (afterExtract e2 fl n t f dl).2)
    rw [hae n]

theorem reflectMode_envWithPackage (env : Env) (p n : String) (pk : LoadedPackage)
    (t f : List String) :
    reflectMode (envWithPackage env p pk) n t f =
      if n == p then reflectLoaded pk t f
      else Except.error (("ResolutionError: ") ++ n) := by
  unfold reflectMode envWithPackage
  show (match List.lookup n [(p, pk)] with
        | none => Except.error (("ResolutionError: ") ++ n)
        | some pkg => reflectLoaded pkg t f) = _
  simp only [List.lookup]
  cases n == p with
  | true => rfl
  | false => rfl

/-! ## Claim theorems -/

/-- C1: for a fixed input — the target package's content per symbol (`declOf`)
and the requested type-name and function/variable-name lists — the whole
generation run is byte-identical regardless of the package's load order
(`names` may list the package's symbols in any membership-equivalent order),
so the output is deterministic and declaration order follows the request's
stable ordering, not load order. -/
theorem spec_C1 (env : Env) (fl : Flags) (p : String) (t f dl ns1 ns2 : List String)
    (dd : String → String) (hperm : ∀ s ∈ t ++ f, (s ∈ ns1 ↔ s ∈ ns2)) :
    createStubsRun (envWithPackage env p ⟨ns1, dd⟩) fl p t f dl
      = createStubsRun (envWithPackage env p ⟨ns2, dd⟩) fl p t f dl := by
  refine createStubsRun_congr _ _ fl p t f dl rfl (fun n => ?_)
  refine afterExtract_congr _ _ fl n t f dl ?_ rfl rfl rfl rfl rfl rfl
  rw [reflectMode_envWithPackage, reflectMode_envWithPackage]
  cases n == p with
  | true =>
    simp only [if_true]
    exact reflectLoaded_memEq t f ns1 ns2 dd hperm
  | false => rfl

theorem spec_C1_witness :
    createStubsRun (envWithPackage sample1Env ("pkgA") ⟨[("A"), ("B")], sampleDecl⟩)
        sampleFlags ("pkgA") [("A")] [("B")] []
      = createStubsRun (envWithPackage sample1Env ("pkgA") ⟨[("B"), ("A")], sampleDecl⟩)
        sampleFlags ("pkgA") [("A")] [("B")] [] :=
  spec_C1 sample1Env sampleFlags ("pkgA") [("A")] [("B")] [] [("A"), ("B")] [("B"), ("A")]
    sampleDecl (by decide)

/-- C2: a requested symbol absent from the loaded package makes the run fail
with an error naming a missing symbol, and the run performs no destination
events at all: the trace is the bare extraction invocation, so no output file
is created or written. -/
theorem spec_C2 (env : Env) (fl : Flags) (p : String) (t f dl : List String)
    (pkg : LoadedPackage) (hp : p ≠ (".")) (hload : List.lookup p env.packages = some pkg)
    (s : String) (hs : s ∈ t ++ f) (hmiss : s ∉ pkg.names) :
    ∃ m, m ∈ t ++ f ∧ m ∉ pkg.names ∧
      createStubsRun env fl p t f dl =
        ([Event.extract p],
         some (("Loading input failed: ") ++ (("SymbolNotFoundError: ") ++ m))) := by
  unfold createStubsRun
  rw [resolveName_ne env p hp]
  cases hfind : (t ++ f).find? (fun n => decide (n ∉ pkg.names)) with
  | none =>
    exfalso
    have := List.find?_eq_none.mp hfind s hs
    simp [hmiss] at this
  | some m =>
    have hm := List.find?_some hfind
    simp only [decide_eq_true_eq] at hm
    refine ⟨m, List.mem_of_find?_eq_some hfind, hm, ?_⟩
    have hae : afterExtract env fl p t f dl =
        ([], some (("Loading input failed: ") ++ (("SymbolNotFoundError: ") ++ m))) := by
      unfold afterExtract reflectMode reflectLoaded
      rw [hload]
      dsimp only
      rw [hfind]
    show (Event.extract p :: (afterExtract env fl p t f dl).1, (afterExtract env fl p t f dl).2) = _
    rw [hae]

theorem spec_C2_witness :
    ∃ m, m ∈ [("T1"), ("NOPE")] ++ ([] : List String) ∧ m ∉ samplePkgA.names ∧
      createStubsRun sample1Env sampleFlags ("pkgA") [("T1"), ("NOPE")] [] [] =
        ([Event.extract ("pkgA")],
         some (("Loading input failed: ") ++ (("SymbolNotFoundError: ") ++ m))) :=
  spec_C2 sample1Env sampleFlags ("pkgA") [("T1"), ("NOPE")] [] [] samplePkgA
    (by decide) rfl ("NOPE") (by decide) (by decide)

/-- C5: the generated file's leading content is the machine-generated marker
(`Code generated ... DO NOT EDIT.` is the first line), then a line naming the
originating package, and — before the body — the `Source:` provenance line
with the literal comma-joined requested type-name and function/variable-name
lists. -/
theorem spec_C5 (p cr body : String) (t f : List String) :
    (generateLines (mkGenerator p t f cr) body).head? =
        some ("// Code generated by depstubber. DO NOT EDIT.") ∧
    (generateLines (mkGenerator p t f cr) body)[1]? =
        some (("// This is a simple stub for ") ++ p ++ (", strictly for use in testing.")) ∧
    (("// Source: ") ++ p ++ (" (exports: ") ++ String.intercalate (",") t ++
        ("; functions: ") ++ String.intercalate (",") f ++ (")"))
      ∈ generateLines (mkGenerator p t f cr) body := by
  by_cases hcr : cr = ("") <;>
    simp [generateLines, mkGenerator, hcr]

/-- C7: when the usage scan of auto mode discovers no external imports (both
name maps empty), the package-path list is empty and the run performs no
extraction pass: the trace is just the completed scan. -/
theorem spec_C7 (env : Env) (fl : Flags)
    (dirs : List (String × List String)) (h : env.autoResult = some ([], [], dirs)) :
    autoPkgPaths [] [] = [] ∧
    mainAutoRun env fl = ([Event.scanComplete], none) ∧
    extractedOf (mainAutoRun env fl).1 = [] := by
  refine ⟨rfl, ?_, ?_⟩ <;>
    · unfold mainAutoRun
      rw [h]
      rfl

theorem spec_C7_witness :
    autoPkgPaths [] [] = [] ∧
    mainAutoRun sampleEmptyEnv sampleFlags = ([Event.scanComplete], none) ∧
    extractedOf (mainAutoRun sampleEmptyEnv sampleFlags).1 = [] :=
  spec_C7 sampleEmptyEnv sampleFlags [] rfl

/-- C10: a package argument that is the literal `"."` is resolved to the
package path of the directory the process runs in before anything
else happens: the run is identical to a run given the resolved path, and in
particular extraction (and hence the vendor destination and the provenance
header downstream) sees the resolved path, never `"."`. -/
theorem spec_C10 (env : Env) (fl : Flags) (t f dl : List String) (n : String)
    (h : env.cwdPkgName = some n) (hn : n ≠ (".")) :
    createStubsRun env fl (".") t f dl = createStubsRun env fl n t f dl ∧
    (createStubsRun env fl (".") t f dl).1.head? = some (Event.extract n) := by
  have hres : resolveName env (".") = Except.ok n := by
    unfold resolveName
    rw [if_pos rfl, h]
  have heq : createStubsRun env fl (".") t f dl = createStubsRun env fl n t f dl := by
    unfold createStubsRun
    rw [hres, resolveName_ne env n hn]
  refine ⟨heq, ?_⟩
  rw [heq]
  unfold createStubsRun
  rw [resolveName_ne env n hn]
  rfl

theorem spec_C10_witness :
    createStubsRun sample1Env sampleFlags (".") [("T1")] [("F1")] []
        = createStubsRun sample1Env sampleFlags ("pkgA") [("T1")] [("F1")] [] ∧
    (createStubsRun sample1Env sampleFlags (".") [("T1")] [("F1")] []).1.head?
        = some (Event.extract ("pkgA")) :=
  spec_C10 sample1Env sampleFlags [("T1")] [("F1")] [] ("pkgA") rfl (by decide)

/-- C9: with a named destination, the file is created (truncated) before
rendering and formatting happen, so a formatting failure aborts the run with
the destination file created but never written — failure is not atomic for
format errors.  The trace is exactly extraction, directory creation and file
creation, with no write event. -/
theorem spec_C9 (env : Env) (fl : Flags) (p : String) (t f dl : List String)
    (pkg : LoadedPackage)
    (hp : p ≠ (".")) (hv : fl.vendor = false) (hd : fl.destination ≠ (""))
    (hcr : fl.copyrightFile = ("")) (hload : List.lookup p env.packages = some pkg)
    (hall : ∀ s ∈ t ++ f, s ∈ pkg.names)
    (hfmt : env.formatOk (rawOutput (mkGenerator p t f ("")) ⟨stubBody pkg t f⟩) = false) :
    createStubsRun env fl p t f dl =
      ([Event.extract p, Event.mkdirAll (dirname fl.destination),
        Event.createFile fl.destination],
       some ("Failed to format generated source code")) ∧
    ((createStubsRun env fl p t f dl).1.filter isWriteFile) = [] := by
  have hae : afterExtract env fl p t f dl =
      ([Event.mkdirAll (dirname fl.destination), Event.createFile fl.destination],
       some ("Failed to format generated source code")) := by
    unfold afterExtract
    rw [show reflectMode env p t f = Except.ok ⟨stubBody pkg t f⟩ by
      unfold reflectMode
      rw [hload]
      exact reflectLoaded_ok pkg t f hall]
    rw [show readCopyright env fl = Except.ok ("") by
      unfold readCopyright
      rw [if_pos hcr]]
    simp [hv, hfmt, destEvents, hd]
  have h1 : createStubsRun env fl p t f dl =
      ([Event.extract p, Event.mkdirAll (dirname fl.destination),
        Event.createFile fl.destination],
       some ("Failed to format generated source code")) := by
    unfold createStubsRun
    rw [resolveName_ne env p hp]
    show (Event.extract p :: (afterExtract env fl p t f dl).1, (afterExtract env fl p t f dl).2) = _
    rw [hae]
  refine ⟨h1, ?_⟩
  rw [h1]
  simp [isWriteFile]

theorem spec_C9_witness :
    createStubsRun sampleNoFmtEnv sampleDestFlags ("pkgA") [("T1")] [("F1")] [] =
      ([Event.extract ("pkgA"), Event.mkdirAll (dirname sampleDestFlags.destination),
        Event.createFile sampleDestFlags.destination],
       some ("Failed to format generated source code")) ∧
    ((createStubsRun sampleNoFmtEnv sampleDestFlags ("pkgA") [("T1")] [("F1")] []).1.filter
        isWriteFile) = [] :=
  spec_C9 sampleNoFmtEnv sampleDestFlags ("pkgA") [("T1")] [("F1")] [] samplePkgA
    (by decide) rfl (by decide) rfl rfl (by decide) rfl

/-- C8: with both `-vendor` and `-force` set and an existing vendor directory,
the very first event of the run removes the entire `vendor` directory of the
enclosing module root — not a per-package subdirectory — before any
generation event. -/
theorem spec_C8 (env : Env) (fl : Flags) (args : Args)
    (hw : fl.writeModuleTxt = false) (hpm : fl.printMode = false)
    (hv : fl.vendor = true) (hf : fl.forceOverwrite = true)
    (he : env.vendorDirExists = true) :
    (mainRun env fl args).1.head? =
      some (Event.removeAll (pathJoin [env.moduleRoot, ("vendor")])) := by
  unfold mainRun
  rw [hw, hpm, hv, hf, he]
  cases h2 : (if fl.auto then mainAutoRun env fl
      else createStubsRun env fl args.pkg (split args.typesArg) (split args.funcsArg) []).2 <;>
    simp [h2]

theorem spec_C8_witness :
    (mainRun sample1Env sampleVendorFlags sampleArgs).1.head? =
      some (Event.removeAll (pathJoin [sample1Env.moduleRoot, ("vendor")])) :=
  spec_C8 sample1Env sampleVendorFlags sampleArgs rfl rfl rfl rfl rfl

theorem extractTag_choice (c : Prop) [Decidable c] (out dest : String) :
    extractTag (if c then Event.writeStdout out else Event.writeFile dest out) = none := by
  split <;> rfl

theorem extractedOf_destEvents (dest : String) : extractedOf (destEvents dest) = [] := by
  unfold destEvents
  split <;> simp [extractedOf, extractTag]

theorem extractedOf_afterExtract (env : Env) (fl : Flags) (n : String)
    (t f dl : List String) : extractedOf (afterExtract env fl n t f dl).1 = [] := by
  unfold afterExtract
  rcases reflectMode env n t f with e | pkg
  · rfl
  · dsimp only
    rcases readCopyright env fl with e | hdr
    · exact extractedOf_destEvents _
    · dsimp only
      split
      · split
        · split <;>
            (by_cases hdd : (if fl.vendor = true then vendorDest env n
                else fl.destination) = ("") <;>
              simp [extractedOf, extractTag, destEvents, hdd])
        · exact extractedOf_destEvents _
      · exact extractedOf_destEvents _

theorem extractedOf_append (a b : List Event) :
    extractedOf (a ++ b) = extractedOf a ++ extractedOf b := by
  simp [extractedOf]

theorem extractedOf_createStubsRun (env : Env) (fl : Flags) (p : String)
    (t f dl : List String) (hp : p ≠ (".")) :
    extractedOf (createStubsRun env fl p t f dl).1 = [p] := by
  unfold createStubsRun
  rw [resolveName_ne env p hp]
  show extractedOf (Event.extract p :: (afterExtract env fl p t f dl).1) = [p]
  have h := extractedOf_afterExtract env fl p t f dl
  simp only [extractedOf, List.filterMap_cons] at h ⊢
  simp [extractTag, h]

theorem runPasses_cons_err (env : Env) (fl : Flags)
    (tm fm dirs : List (String × List String)) (p : String) (rest : List String)
    (e : String) (he : (passOf env fl tm fm dirs p).2 = some e) :
    runPasses env fl tm fm dirs (p :: rest) = ((passOf env fl tm fm dirs p).1, some e) := by
  simp only [runPasses]
  rw [he]

theorem runPasses_cons_ok (env : Env) (fl : Flags)
    (tm fm dirs : List (String × List String)) (p : String) (rest : List String)
    (hok : (passOf env fl tm fm dirs p).2 = none) :
    runPasses env fl tm fm dirs (p :: rest) =
      ((passOf env fl tm fm dirs p).1 ++ (runPasses env fl tm fm dirs rest).1,
       (runPasses env fl tm fm dirs rest).2) := by
  simp only [runPasses]
  rw [hok]

theorem runPasses_ok_extracted (env : Env) (fl : Flags)
    (tm fm dirs : List (String × List String)) (l : List String)
    (hdot : ∀ p ∈ l, p ≠ (".")) (hok : (runPasses env fl tm fm dirs l).2 = none) :
    extractedOf (runPasses env fl tm fm dirs l).1 = l := by
  induction l with
  | nil => rfl
  | cons p rest ih =>
    cases h2 : (passOf env fl tm fm dirs p).2 with
    | some e =>
      rw [runPasses_cons_err env fl tm fm dirs p rest e h2] at hok
      exact absurd hok (by simp)
    | none =>
      rw [runPasses_cons_ok env fl tm fm dirs p rest h2] at hok ⊢
      have h1 : extractedOf (passOf env fl tm fm dirs p).1 = [p] :=
        extractedOf_createStubsRun env fl p _ _ _ (hdot p (by simp))
      show extractedOf ((passOf env fl tm fm dirs p).1 ++
        (runPasses env fl tm fm dirs rest).1) = p :: rest
      rw [extractedOf_append, h1, ih (fun x hx => hdot x (by simp [hx])) hok]
      rfl

theorem runPasses_take (env : Env) (fl : Flags)
    (tm fm dirs : List (String × List String)) (l : List String) :
    ∃ k, k ≤ l.length ∧ (runPasses env fl tm fm dirs l).1 =
      ((l.take k).map (fun p => (passOf env fl tm fm dirs p).1)).flatten := by
  induction l with
  | nil => exact ⟨0, Nat.le_refl 0, rfl⟩
  | cons p rest ih =>
    cases h2 : (passOf env fl tm fm dirs p).2 with
    | some e =>
      refine ⟨1, by simp, ?_⟩
      rw [runPasses_cons_err env fl tm fm dirs p rest e h2]
      simp
    | none =>
      obtain ⟨k, hk, hj⟩ := ih
      refine ⟨k + 1, by simpa using hk, ?_⟩
      rw [runPasses_cons_ok env fl tm fm dirs p rest h2]
      simp [hj]

/-- C6: a failing pass aborts the whole remaining pipeline: in auto mode, when
processing package `p` fails, the run's trace is exactly the failed pass's
trace — no subsequent package is processed — and a failing extraction within
a pass leaves only the bare extraction invocation, with no partial
generation. -/
theorem spec_C6 (env : Env) (fl : Flags) (tm fm dirs : List (String × List String))
    (p : String) (rest : List String) (e : String)
    (q : String) (t f dl : List String) (er : String)
    (he : (passOf env fl tm fm dirs p).2 = some e)
    (hq : q ≠ (".")) (hr : reflectMode env q t f = Except.error er) :
    runPasses env fl tm fm dirs (p :: rest) = ((passOf env fl tm fm dirs p).1, some e) ∧
    createStubsRun env fl q t f dl =
      ([Event.extract q], some (("Loading input failed: ") ++ er)) := by
  refine ⟨runPasses_cons_err env fl tm fm dirs p rest e he, ?_⟩
  unfold createStubsRun
  rw [resolveName_ne env q hq]
  have hae : afterExtract env fl q t f dl = ([], some (("Loading input failed: ") ++ er)) := by
    unfold afterExtract
    rw [hr]
  show (Event.extract q :: (afterExtract env fl q t f dl).1, (afterExtract env fl q t f dl).2) = _
  rw [hae]

theorem spec_C6_witness :
    runPasses sample1Env sampleFlags [] [] [] ([("nope"), ("pkgA")]) =
      ((passOf sample1Env sampleFlags [] [] [] ("nope")).1,
       some (("Loading input failed: ") ++ (("ResolutionError: ") ++ ("nope")))) ∧
    createStubsRun sample1Env sampleFlags ("nope") [] [] [] =
      ([Event.extract ("nope")],
       some (("Loading input failed: ") ++ (("ResolutionError: ") ++ ("nope")))) :=
  spec_C6 sample1Env sampleFlags [] [] [] ("nope") [("pkgA")]
    (("Loading input failed: ") ++ (("ResolutionError: ") ++ ("nope")))
    ("nope") [] [] [] (("ResolutionError: ") ++ ("nope")) rfl (by decide) rfl

/-- C3: the auto-mode orchestrator iterates exactly the union of the type-name
map's keys and the function/variable-name map's keys, deduplicated and
lexicographically sorted: on a successful run the extraction invocations in
the trace are exactly that list, which is sorted, duplicate-free, and a
permutation of the deduplicated key union. -/
theorem spec_C3 (env : Env) (fl : Flags) (tm fm dirs : List (String × List String))
    (h : env.autoResult = some (tm, fm, dirs))
    (hdot : ∀ p ∈ autoPkgPaths tm fm, p ≠ ("."))
    (hok : (mainAutoRun env fl).2 = none) :
    extractedOf (mainAutoRun env fl).1 = autoPkgPaths tm fm ∧
    List.Sorted (fun a b => a ≤ b) (autoPkgPaths tm fm) ∧
    (autoPkgPaths tm fm).Nodup ∧
    (autoPkgPaths tm fm).Perm (List.dedup (keysOf fm ++ keysOf tm)) := by
  have hm : mainAutoRun env fl =
      (Event.scanComplete :: (runPasses env fl tm fm dirs (autoPkgPaths tm fm)).1,
       (runPasses env fl tm fm dirs (autoPkgPaths tm fm)).2) := by
    unfold mainAutoRun
    rw [h]
  rw [hm] at hok
  refine ⟨?_, ?_, ?_, ?_⟩
  · rw [hm]
    show extractedOf (Event.scanComplete ::
      (runPasses env fl tm fm dirs (autoPkgPaths tm fm)).1) = _
    simp only [extractedOf, List.filterMap_cons]
    exact runPasses_ok_extracted env fl tm fm dirs (autoPkgPaths tm fm) hdot hok
  · exact List.sorted_insertionSort _ _
  · exact (List.perm_insertionSort _ _).nodup_iff.mpr (List.nodup_dedup _)
  · exact List.perm_insertionSort _ _

theorem spec_C3_witness :
    extractedOf (mainAutoRun sample1Env sampleFlags).1 =
      autoPkgPaths [(("pkgA"), [("T1")])] [(("pkgA"), [("F1")])] ∧
    List.Sorted (fun a b => a ≤ b)
      (autoPkgPaths [(("pkgA"), [("T1")])] [(("pkgA"), [("F1")])]) ∧
    (autoPkgPaths [(("pkgA"), [("T1")])] [(("pkgA"), [("F1")])]).Nodup ∧
    (autoPkgPaths [(("pkgA"), [("T1")])] [(("pkgA"), [("F1")])]).Perm
      (List.dedup (keysOf [(("pkgA"), [("F1")])] ++ keysOf [(("pkgA"), [("T1")])])) :=
  spec_C3 sample1Env sampleFlags [(("pkgA"), [("T1")])] [(("pkgA"), [("F1")])]
    [(("pkgA"), [("d1")])] rfl (by decide) rfl

/-- C4: in auto mode the usage scan completes — its result fully materialized
— before any extraction pass begins (the scan-completion event is the very
first event of the trace), and the trace decomposes into the complete traces
of the first `k` per-package passes, one after another: each pass runs to
completion before the next begins, with nothing interleaved. -/
theorem spec_C4 (env : Env) (fl : Flags) (tm fm dirs : List (String × List String))
    (h : env.autoResult = some (tm, fm, dirs)) :
    (mainAutoRun env fl).1.head? = some Event.scanComplete ∧
    ∃ k, k ≤ (autoPkgPaths tm fm).length ∧
      (mainAutoRun env fl).1 = Event.scanComplete ::
        (((autoPkgPaths tm fm).take k).map
          (fun p => (passOf env fl tm fm dirs p).1)).flatten := by
  have hm : mainAutoRun env fl =
      (Event.scanComplete :: (runPasses env fl tm fm dirs (autoPkgPaths tm fm)).1,
       (runPasses env fl tm fm dirs (autoPkgPaths tm fm)).2) := by
    unfold mainAutoRun
    rw [h]
  constructor
  · rw [hm]
    rfl
  · obtain ⟨k, hk, hj⟩ := runPasses_take env fl tm fm dirs (autoPkgPaths tm fm)
    exact ⟨k, hk, by rw [hm, hj]⟩

theorem spec_C4_witness :
    (mainAutoRun sample1Env sampleFlags).1.head? = some Event.scanComplete ∧
    ∃ k, k ≤ (autoPkgPaths [(("pkgA"), [("T1")])] [(("pkgA"), [("F1")])]).length ∧
      (mainAutoRun sample1Env sampleFlags).1 = Event.scanComplete ::
        (((autoPkgPaths [(("pkgA"), [("T1")])] [(("pkgA"), [("F1")])]).take k).map
          (fun p => (passOf sample1Env sampleFlags [(("pkgA"), [("T1")])]
            [(("pkgA"), [("F1")])] [(("pkgA"), [("d1")])] p).1)).flatten :=
  spec_C4 sample1Env sampleFlags [(("pkgA"), [("T1")])] [(("pkgA"), [("F1")])]
    [(("pkgA"), [("d1")])] rfl

end Depstubber
